import Mathlib

/-!
Shallow embedding of `translate/storage/tm_db.py` (class `TMDB`), the
translation-memory store of the `translate` repository, together with proofs
about its insertion protocol and fuzzy-match retrieval.

Conventions of the embedding:
* Python strings are modelled as `String`; on the ASCII inputs used in the
  concrete runs below, Python's `len` coincides with `String.length`.
* Nullable values (`None`) are modelled as `Option`.
* The SQLite database backing the store is modelled as explicit lists of rows
  plus the `AUTOINCREMENT` counters; the connection is a pair of a committed
  snapshot and the current (possibly uncommitted) state.
* SQLite's three-valued comparison logic is modelled where it matters: a
  `NULL` column value compares unequal to everything, including `NULL`, both
  in the `(text, context, lang)` unique index and in `WHERE context = ?`.
* Python float arithmetic (used by `min_levenshtein_length` and
  `max_levenshtein_length`) is modelled exactly: `roundDouble` rounds a
  rational to the nearest IEEE-754 binary64 value (ties to even), which is the
  correct semantics for the normal-range magnitudes that occur here.
* Exceptions are modelled by `PyError`; a raised exception is an `Except.error`
  value or a `some` error component of a result pair.
-/

/-- Row of the `sources` table:
`sid INTEGER PRIMARY KEY AUTOINCREMENT, text NOT NULL, context DEFAULT NULL,
lang NOT NULL, length NOT NULL`. -/
structure SourceRow where
  sid : Nat
  text : String
  context : Option String
  lang : String
  length : Nat
deriving Repr, DecidableEq

/-- Row of the `targets` table:
`tid INTEGER PRIMARY KEY AUTOINCREMENT, sid NOT NULL REFERENCES sources(sid),
text NOT NULL, lang NOT NULL, length NOT NULL, time DEFAULT NULL`. -/
structure TargetRow where
  tid : Nat
  sid : Nat
  text : String
  lang : String
  length : Nat
  time : Nat
deriving Repr, DecidableEq

/-- The tables created by `init_database`, with the `AUTOINCREMENT` counters.
Rows are kept in insertion order. -/
structure DBData where
  sources : List SourceRow
  targets : List TargetRow
  nextSid : Nat
  nextTid : Nat
deriving Repr, DecidableEq

/-- A fresh database, as left by `init_database` on a new file
(SQLite `AUTOINCREMENT` starts at 1). -/
def emptyDB : DBData := { sources := [], targets := [], nextSid := 1, nextTid := 1 }

/-- An sqlite connection: the committed snapshot (what is durably in the
store) and the current state including uncommitted statements.  `commit`
copies current over committed, `rollback` copies committed over current. -/
structure ConnState where
  committed : DBData
  current : DBData
deriving Repr, DecidableEq

/-- A freshly opened connection on a new database file. -/
def emptyState : ConnState := { committed := emptyDB, current := emptyDB }

/-- Exceptions raised by the Python code paths modelled here. -/
inductive PyError where
  /-- `LanguageError(value)` from `tm_db.py`. -/
  | languageError (value : String)
  /-- `TypeError`, e.g. `len(None)` or unpacking `None` as a 1-tuple. -/
  | typeError
  /-- `AttributeError`, e.g. `None.encode("utf-8")`. -/
  | attributeError
deriving Repr, DecidableEq

/-- The translation-unit object consumed by `add_unit`, reduced to the
attributes the code reads.  All string-valued attributes may be `None` in the
Python object model; `translatable`/`translated` model the
`istranslatable()`/`istranslated()` predicates. -/
structure TranslationUnit where
  source : Option String
  target : Option String
  context : Option String
  sourcelanguage : Option String
  targetlanguage : Option String
  translatable : Bool
  translated : Bool
deriving Repr, DecidableEq

/-- Python truthiness of an optional string: `None` and `""` are falsy.
Models `if unit.getsourcelanguage():` and `if not source_lang:`. -/
def truthy : Option String → Bool
  | none => false
  | some s => !s.isEmpty

/-- SQL equality on a nullable column under SQLite's three-valued logic:
`NULL` compares unequal to everything, including `NULL`.  This governs both
the `(text, context, lang)` unique index (two rows with `NULL` context never
conflict) and the `WHERE context = ?` lookup (binding `None` matches no row). -/
def sqlEq : Option String → Option String → Bool
  | some a, some b => a == b
  | _, _ => false

/-- Whether inserting `(text, ctx, lang)` into `sources` violates the unique
index `sources_uniq_idx ON sources (text, context, lang)`. -/
def sourcesConflict (rows : List SourceRow) (text : String) (ctx : Option String)
    (lang : String) : Bool :=
  rows.any fun r => r.text == text && sqlEq r.context ctx && r.lang == lang

/-- `SELECT sid FROM sources WHERE text=? AND context=? and lang=?` followed by
`fetchone()`: the sid of the first matching row, if any. -/
def sourcesLookup (rows : List SourceRow) (text : String) (ctx : Option String)
    (lang : String) : Option Nat :=
  (rows.find? fun r => r.text == text && sqlEq r.context ctx && r.lang == lang).map
    fun r => r.sid

/-- Whether inserting `(sid, text, lang)` into `targets` violates the unique
index `targets_uniq_idx ON targets (sid, text, lang)`.  All three columns are
`NOT NULL`, so plain equality applies. -/
def targetsConflict (rows : List TargetRow) (sid : Nat) (text lang : String) : Bool :=
  rows.any fun t => t.sid == sid && t.text == text && t.lang == lang

/-- The guarded target insertion of `add_unit`:
`INSERT INTO targets (sid, text, lang, length, time) VALUES (?, ?, ?, ?, ?)`
wrapped in `except dbapi2.IntegrityError: pass` — a uniqueness conflict is
swallowed and nothing is written; otherwise the row is appended.  Total: the
conflict is never surfaced as an error. -/
def targetsTryInsert (db : DBData) (sid : Nat) (text lang : String) (now : Nat) : DBData :=
  if targetsConflict db.targets sid text lang then db
  else
    { db with
        targets := db.targets ++
          [{ tid := db.nextTid, sid := sid, text := text, lang := lang,
             length := text.length, time := now }],
        nextTid := db.nextTid + 1 }

/-- Body of the outer `try` block of `add_unit`, acting on the current
database state: the guarded source insertion (conflict recovered by the sid
lookup), then the guarded target insertion.  `sl`/`tl` are the resolved
languages, `now` is `int(time.time())`.  Returns the mutated state and the
raised exception, if any; statements already executed keep their effect even
when a later step raises. -/
def addUnitBody (db : DBData) (u : TranslationUnit) (sl tl : String) (now : Nat) :
    DBData × Option PyError :=
  match u.source with
  | none => (db, some PyError.typeError)
  | some srcText =>
    let afterSource : DBData × Except PyError Nat :=
      if sourcesConflict db.sources srcText u.context sl then
        match sourcesLookup db.sources srcText u.context sl with
        | some sid => (db, Except.ok sid)
        | none => (db, Except.error PyError.typeError)
      else
        ({ db with
             sources := db.sources ++
               [{ sid := db.nextSid, text := srcText, context := u.context,
                  lang := sl, length := srcText.length }],
             nextSid := db.nextSid + 1 },
         Except.ok db.nextSid)
    match afterSource with
    | (db1, Except.error e) => (db1, some e)
    | (db1, Except.ok sid) =>
      match u.target with
      | none => (db1, some PyError.typeError)
      | some tgtText => (targetsTryInsert db1 sid tgtText tl now, none)

/-- `TMDB.add_unit(unit, source_lang, target_lang, commit)`: resolve the
languages (the unit's own declared language wins over the caller's argument),
raise `LanguageError` if either side is still falsy, run the insertion body,
then commit on success or roll back on failure when `commit` is requested. -/
def add_unit (st : ConnState) (u : TranslationUnit) (source_lang target_lang : Option String)
    (commit : Bool) (now : Nat) : ConnState × Option PyError :=
  let sl := if truthy u.sourcelanguage then u.sourcelanguage else source_lang
  let tl := if truthy u.targetlanguage then u.targetlanguage else target_lang
  if truthy sl = false then
    (st, some (PyError.languageError "undefined source language"))
  else if truthy tl = false then
    (st, some (PyError.languageError "undefined target language"))
  else
    match addUnitBody st.current u (sl.getD "") (tl.getD "") now with
    | (db, none) =>
      if commit then ({ committed := db, current := db }, none)
      else ({ st with current := db }, none)
    | (db, some e) =>
      if commit then ({ committed := st.committed, current := st.committed }, some e)
      else ({ st with current := db }, some e)

/-- The loop of `add_store`: every unit that is both translatable and
translated is added with `commit=False`; a raised exception aborts the loop
and propagates. -/
def addStoreLoop (st : ConnState) (units : List TranslationUnit)
    (source_lang target_lang : Option String) (now : Nat) : ConnState × Option PyError :=
  match units with
  | [] => (st, none)
  | u :: rest =>
    if u.translatable && u.translated then
      match add_unit st u source_lang target_lang false now with
      | (st1, none) => addStoreLoop st1 rest source_lang target_lang now
      | (st1, some e) => (st1, some e)
    else addStoreLoop st rest source_lang target_lang now

/-- `TMDB.add_store(store, source_lang, target_lang, commit)`: run the loop,
then commit once at the end if requested and nothing was raised. -/
def add_store (st : ConnState) (units : List TranslationUnit)
    (source_lang target_lang : Option String) (commit : Bool) (now : Nat) :
    ConnState × Option PyError :=
  match addStoreLoop st units source_lang target_lang now with
  | (st1, none) =>
    if commit then ({ committed := st1.current, current := st1.current }, none)
    else (st1, none)
  | (st1, some e) => (st1, some e)

/-! IEEE-754 binary64 model.  Python's float arithmetic (`S/100.0`,
`length * ...`, `length / ...`) computes the exact rational result and rounds
it to the nearest representable double, ties to even.  All magnitudes arising
in `min_levenshtein_length`/`max_levenshtein_length` for positive arguments
lie well inside the normal range of binary64, so rounding to a 53-bit
significand is the complete semantics; the model below was validated against
CPython's float results on the full grid `min_similarity` 1..100,
`length` 0..2000. -/

/-- Fuel-driven base-2 logarithm on naturals: `natLog2F f n` is `⌊log2 n⌋`
for `n ≥ 1` whenever `f ≥ n` (the fuel only forces structural recursion). -/
def natLog2F : Nat → Nat → Nat
  | 0, _ => 0
  | fuel + 1, n => if 2 ≤ n then natLog2F fuel (n / 2) + 1 else 0

/-- Fuel-driven ceiling base-2 logarithm of the fraction `a / b`:
the least `k` with `a ≤ b * 2 ^ k`, whenever the fuel suffices
(`f ≥ a` does, for `b ≥ 1`). -/
def natClog2F : Nat → Nat → Nat → Nat
  | 0, _, _ => 0
  | fuel + 1, a, b => if a ≤ b then 0 else natClog2F fuel a (2 * b) + 1

/-- Floor of the base-2 logarithm of a positive rational. -/
def ilog2 (q : ℚ) : ℤ :=
  if 1 ≤ q then (natLog2F (Int.toNat q.num) (Int.toNat ⌊q⌋) : ℤ)
  else -(natClog2F (Int.toNat (q⁻¹).num) (Int.toNat (q⁻¹).num) (q⁻¹).den : ℤ)

/-- Integer power of two as a rational, for a signed exponent. -/
def twoPow (e : ℤ) : ℚ :=
  if 0 ≤ e then ((2 ^ e.toNat : ℕ) : ℚ) else 1 / ((2 ^ (-e).toNat : ℕ) : ℚ)

/-- Round a rational to the nearest integer, ties to even. -/
def rne (x : ℚ) : ℤ :=
  let f := ⌊x⌋
  if x - (f : ℚ) < 1 / 2 then f
  else if (1 : ℚ) / 2 < x - (f : ℚ) then f + 1
  else if f % 2 = 0 then f else f + 1

/-- Round a nonnegative rational to the nearest IEEE-754 binary64 value
(round to nearest, ties to even), returned as an exact rational: the
significand is scaled into `[2^52, 2^53)` and rounded to an integer.  This is
the result of a CPython float operation whose exact value is `q`, for the
normal-range magnitudes used in this file. -/
def roundDouble (q : ℚ) : ℚ :=
  if q ≤ 0 then 0
  else
    let e := ilog2 q
    (rne (q * twoPow (52 - e)) : ℚ) * twoPow (e - 52)

/-- `min_levenshtein_length(length, min_similarity)`:
`math.ceil(max(length * (min_similarity/100.0), 2))`, with the two float
operations (the division and the multiplication) rounded to binary64.
Python's `max` and `math.ceil` are exact on the rational value.  (With
`min_similarity = 0` the Python expression is `0.0`-valued, not an error.) -/
def min_levenshtein_length (length min_similarity : Nat) : ℤ :=
  ⌈max (roundDouble ((length : ℚ) * roundDouble ((min_similarity : ℚ) / 100))) 2⌉

/-- `max_levenshtein_length(length, min_similarity, max_length)`:
`math.floor(min(length / (min_similarity/100.0), max_length))`, with the two
float divisions rounded to binary64.  (`min_similarity = 0` raises
`ZeroDivisionError` in Python; the claims below only use positive values.) -/
def max_levenshtein_length (length min_similarity max_length : Nat) : ℤ :=
  ⌊min (roundDouble ((length : ℚ) / roundDouble ((min_similarity : ℚ) / 100)))
      (max_length : ℚ)⌋

/-- The `source_langs`/`target_langs` arguments of `translate_unit`: the
Python code accepts either a single language tag or a list of tags. -/
inductive LangArg where
  | str (s : String)
  | list (l : List String)
deriving Repr, DecidableEq

/-- The normalisation at the top of `translate_unit`:
`if isinstance(source_langs, list): source_langs = ','.join(source_langs)`.
The result is bound as ONE parameter of the `IN (?)` clause. -/
def joinLangs : LangArg → String
  | LangArg.str s => s
  | LangArg.list l => String.intercalate "," l

/-- One result dictionary of `translate_unit`:
`{source, target, context, quality}`. -/
structure MatchRecord where
  source : String
  target : String
  context : String
  quality : Nat
deriving Repr, DecidableEq

/-- The configuration carried by a `TMDB` instance (constructor arguments). -/
structure TMConfig where
  max_candidates : Nat
  min_similarity : Nat
  max_length : Nat
deriving Repr, DecidableEq

/-- `TMDB(db_file)` defaults: `max_candidates=3, min_similarity=75,
max_length=1000`. -/
def defaultConfig : TMConfig :=
  { max_candidates := 3, min_similarity := 75, max_length := 1000 }

/-- The candidate query of `translate_unit`:
`SELECT s.text, t.text, s.context, s.lang, t.lang FROM sources s JOIN targets t
ON s.sid = t.sid WHERE s.lang IN (?) AND t.lang IN (?) AND s.length >= ? AND
s.length <= ?`.  Each `IN (?)` clause receives a single bound string, so
SQLite evaluates it as equality of the column with that whole string.  Rows
are produced in table order of the join. -/
def selectCandidates (db : DBData) (srcParam tgtParam : String)
    (minlen maxlen : ℤ) : List (SourceRow × TargetRow) :=
  db.sources.flatMap fun s =>
    (db.targets.filter fun t =>
        s.sid == t.sid && s.lang == srcParam && t.lang == tgtParam &&
        decide (minlen ≤ (s.length : ℤ)) && decide ((s.length : ℤ) ≤ maxlen)).map
      fun t => (s, t)

/-- The candidate set as the SPEC words it (spec step 3 of the match
algorithm): Source-Target pairs whose source language is a member of
`source_langs`, whose target language is a member of `target_langs`, and
whose stored source length lies in the window.  Stated for comparison with
`selectCandidates`, which is what the code executes. -/
def specCandidates (db : DBData) (source_langs target_langs : List String)
    (minlen maxlen : ℤ) : List (SourceRow × TargetRow) :=
  db.sources.flatMap fun s =>
    (db.targets.filter fun t =>
        s.sid == t.sid && source_langs.contains s.lang &&
        target_langs.contains t.lang &&
        decide (minlen ≤ (s.length : ℤ)) && decide ((s.length : ℤ) ≤ maxlen)).map
      fun t => (s, t)

/-- `row[2].encode("utf-8")` on the selected context column: a non-null
context is returned as-is, while a `NULL` context arrives as `None`, which
has no `encode` method — the call raises `AttributeError`. -/
def encodeContext : Option String → Except PyError String
  | some s => Except.ok s
  | none => Except.error PyError.attributeError

/-- The result-building loop of `translate_unit`: for each row of the cursor,
build the dictionary (encoding source, target and context), score the source
against the query with the comparer, and keep the record when
`result['quality'] >= self.min_similarity`.  A raised exception aborts the
loop. -/
def buildResults (comparer : String → String → Nat → Nat) (minSim : Nat)
    (queryText : String) : List (SourceRow × TargetRow) →
    Except PyError (List MatchRecord)
  | [] => Except.ok []
  | (s, t) :: rest => do
    let ctx ← encodeContext s.context
    let q := comparer queryText s.text minSim
    let rec' ← pure { source := s.text, target := t.text, context := ctx,
                      quality := q : MatchRecord }
    let others ← buildResults comparer minSim queryText rest
    if minSim ≤ q then Except.ok (rec' :: others) else Except.ok others

/-- One insertion step of sorting by quality, descending (the relative order
of equal qualities is not part of any claim). -/
def insertByQuality (a : MatchRecord) : List MatchRecord → List MatchRecord
  | [] => [a]
  | b :: l => if b.quality ≤ a.quality then a :: b :: l else b :: insertByQuality a l

/-- `results.sort(key=lambda match: match['quality'], reverse=True)` modelled
as an insertion sort on the quality key, descending. -/
def sortByQualityDesc : List MatchRecord → List MatchRecord
  | [] => []
  | a :: l => insertByQuality a (sortByQualityDesc l)

/-- `TMDB.translate_unit(unit_source, source_langs, target_langs)`: normalise
the language arguments, compute the length window, run the candidate query,
build and filter the scored records, sort by quality descending and truncate
to `max_candidates`.  The comparer (`self.comparer.similarity`) is passed as
a function parameter. -/
def translate_unit (cfg : TMConfig) (comparer : String → String → Nat → Nat)
    (db : DBData) (unit_source : String) (source_langs target_langs : LangArg) :
    Except PyError (List MatchRecord) := do
  let srcParam := joinLangs source_langs
  let tgtParam := joinLangs target_langs
  let minlen := min_levenshtein_length unit_source.length cfg.min_similarity
  let maxlen := max_levenshtein_length unit_source.length cfg.min_similarity
      cfg.max_length
  let results ← buildResults comparer cfg.min_similarity unit_source
      (selectCandidates db srcParam tgtParam minlen maxlen)
  Except.ok ((sortByQualityDesc results).take cfg.max_candidates)

/-- One row of the Levenshtein dynamic programme: given the previous row
(`prev`, aligned with the remaining suffix of `b` plus one) and the value to
the left (`left`), produce the rest of the current row. -/
def levRowGo (x : Char) : List Char → List Nat → Nat → List Nat
  | y :: ys, p0 :: p1 :: ps, left =>
    let c := min (p1 + 1) (min (left + 1) (p0 + (if x = y then 0 else 1)))
    c :: levRowGo x ys (p1 :: ps) c
  | _, _, _ => []

/-- Levenshtein edit distance between two strings, computed row by row
(structural recursion, so concrete runs reduce in the kernel). -/
def levDistance (a b : String) : Nat :=
  let bs := b.data
  let final := a.data.foldl
    (fun (acc : List Nat × Nat) x =>
      let i := acc.2 + 1
      (i :: levRowGo x bs acc.1 i, i))
    (List.range (bs.length + 1), 0)
  final.1.getLastD 0

/-- Modelled from the spec: the external comparer
`translate.search.lshtein.LevenshteinComparer.similarity`, whose module is
not under `src/`.  The spec specifies only its interface: "given two strings
and a similarity floor, returns a 0-100 score, where the computation is
conceptually bounded edit-distance normalized by length"; identical strings
score 100 (spec round-trip property).  The similarity floor argument is a
stopping hint only and does not affect the value here. -/
def lshteinSimilarity (a b : String) (_stoppercentage : Nat) : Nat :=
  let m := max a.length b.length
  if m = 0 then 100 else 100 * (m - levDistance a b) / m

/-- The round-trip unit: source "Hello world", target "Bonjour le monde",
empty context, no per-unit languages. -/
def u9 : TranslationUnit :=
  { source := some "Hello world", target := some "Bonjour le monde",
    context := some "", sourcelanguage := none, targetlanguage := none,
    translatable := true, translated := true }

/-- The store after `add_unit(u9, source_lang="en", target_lang="fr")` on a
fresh database. -/
def st9 : ConnState := (add_unit emptyState u9 (some "en") (some "fr") true 0).1

/-- Two source rows carrying the same `(text, context, lang)` triple. -/
def SameTriple (r1 r2 : SourceRow) : Prop :=
  r1.text = r2.text ∧ r1.context = r2.context ∧ r1.lang = r2.lang

/-- The deduplication invariant of the `sources` table as it actually holds
on the code: no two rows with a NON-NULL context share the same
`(text, context, lang)` triple.  (Rows with `NULL` context are exempt:
SQLite unique indexes treat `NULL` values as pairwise distinct.) -/
def NoDupSources (rows : List SourceRow) : Prop :=
  List.Pairwise (fun r1 r2 => r1.context ≠ none → ¬SameTriple r1 r2) rows

/-- The invariant on both snapshots of a connection. -/
def StateNoDup (st : ConnState) : Prop :=
  NoDupSources st.current.sources ∧ NoDupSources st.committed.sources

/-- A unit with an absent (null) context, used to exercise the `NULL`
branch of the unique index. -/
def u2 : TranslationUnit :=
  { source := some "Hello", target := some "Bonjour", context := none,
    sourcelanguage := none, targetlanguage := none,
    translatable := true, translated := true }

/-- A well-formed unit for batch insertion. -/
def u3good : TranslationUnit :=
  { source := some "One", target := some "Un", context := some "",
    sourcelanguage := none, targetlanguage := none,
    translatable := true, translated := true }

/-- A unit that raises an unexpected error inside `add_unit`: it reports
itself translated but its target is `None`, so `len(unit.target)` raises
`TypeError` after the source row was already inserted. -/
def u3bad : TranslationUnit :=
  { source := some "Two", target := none, context := some "",
    sourcelanguage := none, targetlanguage := none,
    translatable := true, translated := true }

/-- The connection after `add_store` on the document `[u3good, u3bad]` with
`commit=True`, which raises partway. -/
def st3 : ConnState :=
  (add_store emptyState [u3good, u3bad] (some "en") (some "fr") true 0).1

/-- A store holding one "Hello" -> "Bonjour" pair with empty (non-null)
context. -/
def db5 : DBData :=
  { sources := [{ sid := 1, text := "Hello", context := some "", lang := "en",
                  length := 5 }],
    targets := [{ tid := 1, sid := 1, text := "Bonjour", lang := "fr",
                  length := 7, time := 0 }],
    nextSid := 2, nextTid := 2 }

/-- The record returned for `db5` under a comparer that scores 80. -/
def rec5 : MatchRecord :=
  { source := "Hello", target := "Bonjour", context := "", quality := 80 }

/-- A store holding one pair whose source row was stored with an absent
(null) context. -/
def db10 : DBData :=
  { sources := [{ sid := 1, text := "Hello", context := none, lang := "en",
                  length := 5 }],
    targets := [{ tid := 1, sid := 1, text := "Bonjour", lang := "fr",
                  length := 7, time := 0 }],
    nextSid := 2, nextTid := 2 }

example :
    (add_unit emptyState u3good (some "en") (some "fr") true 7).1.current.sources =
      [{ sid := 1, text := "One", context := some "", lang := "en", length := 3 }] := by
  decide

example : roundDouble ((75 : ℚ) / 100) = 3 / 4 := by with_unfolding_all rfl

example : min_levenshtein_length 10 75 = 8 := by with_unfolding_all rfl

example : max_levenshtein_length 7 7 1000 = 99 := by with_unfolding_all rfl

example : levDistance "kitten" "sitting" = 3 := by decide

example : lshteinSimilarity "Hello world" "Hello world" 75 = 100 := by decide

example :
    translate_unit defaultConfig lshteinSimilarity st9.current "Hello world"
      (LangArg.list ["en"]) (LangArg.list ["fr"]) =
    Except.ok [{ source := "Hello world", target := "Bonjour le monde",
                 context := "", quality := 100 }] := by
  with_unfolding_all rfl

/-! Helper lemmas. -/

theorem targetsTryInsert_sources (db : DBData) (sid : Nat) (text lang : String)
    (now : Nat) : (targetsTryInsert db sid text lang now).sources = db.sources := by
  unfold targetsTryInsert
  split <;> rfl

theorem targetsTryInsert_nextSid (db : DBData) (sid : Nat) (text lang : String)
    (now : Nat) : (targetsTryInsert db sid text lang now).nextSid = db.nextSid := by
  unfold targetsTryInsert
  split <;> rfl

theorem targetsConflict_of_insert (db : DBData) (sid : Nat) (text lang : String)
    (now : Nat) :
    targetsConflict (targetsTryInsert db sid text lang now).targets sid text lang = true := by
  unfold targetsTryInsert
  split
  · assumption
  · simp [targetsConflict, List.any_append]

theorem targetsTryInsert_idem (db : DBData) (sid : Nat) (text lang : String)
    (now1 now2 : Nat) :
    targetsTryInsert (targetsTryInsert db sid text lang now1) sid text lang now2 =
      targetsTryInsert db sid text lang now1 := by
  have h := targetsConflict_of_insert db sid text lang now1
  unfold targetsTryInsert
  rw [if_pos]
  exact h

theorem add_unit_false_committed (st : ConnState) (u : TranslationUnit)
    (source_lang target_lang : Option String) (now : Nat) :
    ((add_unit st u source_lang target_lang false now).1).committed = st.committed := by
  unfold add_unit
  set sl := (if truthy u.sourcelanguage then u.sourcelanguage else source_lang) with hsl
  set tl := (if truthy u.targetlanguage then u.targetlanguage else target_lang) with htl
  by_cases h1 : truthy sl = false
  · rw [if_pos h1]
  · rw [if_neg h1]
    by_cases h2 : truthy tl = false
    · rw [if_pos h2]
    · rw [if_neg h2]
      rcases h : addUnitBody st.current u (sl.getD "") (tl.getD "") now with ⟨db, e⟩
      cases e <;> rfl

theorem addStoreLoop_committed (units : List TranslationUnit) (st : ConnState)
    (source_lang target_lang : Option String) (now : Nat) :
    ((addStoreLoop st units source_lang target_lang now).1).committed = st.committed := by
  induction units generalizing st with
  | nil => rfl
  | cons u rest ih =>
    unfold addStoreLoop
    split
    · rcases h : add_unit st u source_lang target_lang false now with ⟨st1, e⟩
      have hc : st1.committed = st.committed := by
        have := add_unit_false_committed st u source_lang target_lang now
        rw [h] at this
        exact this
      cases e with
      | none => simpa [hc] using ih st1
      | some e => simpa using hc
    · exact ih st

/-! Claim theorems. -/

/-- C3: if an unexpected error is raised by some unit partway through
`add_store(document, source_lang, target_lang, commit=True)`, then nothing
from that document is committed: on an error outcome the committed snapshot
is exactly the pre-call one, and on a success outcome the single final
commit publishes the whole batch. -/
theorem add_store_batch_atomic :
    ∀ (st : ConnState) (units : List TranslationUnit)
      (source_lang target_lang : Option String) (now : Nat)
      (st1 : ConnState) (r : Option PyError),
      add_store st units source_lang target_lang true now = (st1, r) →
      (r ≠ none → st1.committed = st.committed) ∧
      (r = none → st1.committed = st1.current) := by
  intro st units source_lang target_lang now st1 r h
  unfold add_store at h
  rcases hl : addStoreLoop st units source_lang target_lang now with ⟨st2, e⟩
  rw [hl] at h
  have hc : st2.committed = st.committed := by
    have h2 := addStoreLoop_committed units st source_lang target_lang now
    rw [hl] at h2
    exact h2
  cases e with
  | none =>
    have h' : ({ committed := st2.current, current := st2.current }, (none : Option PyError)) =
        (st1, r) := h
    injection h' with h1 h2
    subst h1
    subst h2
    constructor
    · intro hr
      exact absurd rfl hr
    · intro _
      rfl
  | some e0 =>
    have h' : (st2, some e0) = (st1, r) := h
    injection h' with h1 h2
    subst h1
    subst h2
    constructor
    · intro _
      exact hc
    · intro hr
      exact absurd hr (by simp)

/-- C3 witness: on the concrete document `[u3good, u3bad]` the second unit
raises after the first unit's rows were inserted, and nothing is committed. -/
theorem add_store_batch_atomic_witness :
    st3.committed = emptyState.committed ∧
    add_store emptyState [u3good, u3bad] (some "en") (some "fr") true 0 =
      (st3, some PyError.typeError) := by
  constructor
  · exact (add_store_batch_atomic emptyState [u3good, u3bad] (some "en") (some "fr") 0
      st3 (some PyError.typeError) (by decide)).1 (by simp)
  · decide

/-- C4: when neither the unit's declared language nor the caller-supplied
argument yields a truthy source language (resp. target language, with the
source side resolved), `add_unit` returns the `LanguageError` naming the
undefined side and the connection state — both tables, both snapshot and
current — is exactly the pre-call state. -/
theorem add_unit_language_error :
    (∀ (st : ConnState) (u : TranslationUnit) (source_lang target_lang : Option String)
        (commit : Bool) (now : Nat),
        truthy u.sourcelanguage = false → truthy source_lang = false →
        add_unit st u source_lang target_lang commit now =
          (st, some (PyError.languageError "undefined source language"))) ∧
    (∀ (st : ConnState) (u : TranslationUnit) (source_lang target_lang : Option String)
        (commit : Bool) (now : Nat),
        truthy u.targetlanguage = false → truthy target_lang = false →
        truthy (if truthy u.sourcelanguage then u.sourcelanguage else source_lang) = true →
        add_unit st u source_lang target_lang commit now =
          (st, some (PyError.languageError "undefined target language"))) := by
  constructor
  · intro st u source_lang target_lang commit now h1 h2
    simp [add_unit, h1, h2]
  · intro st u source_lang target_lang commit now h1 h2 h3
    simp [add_unit, h1, h2, h3]

/-- C4 witness: a unit with no source language at all, and a unit with a
resolvable source but no target language. -/
theorem add_unit_language_error_witness :
    add_unit emptyState u2 none (some "fr") true 0 =
      (emptyState, some (PyError.languageError "undefined source language")) ∧
    add_unit emptyState u2 (some "en") none true 0 =
      (emptyState, some (PyError.languageError "undefined target language")) :=
  ⟨add_unit_language_error.1 emptyState u2 none (some "fr") true 0 (by decide) (by decide),
   add_unit_language_error.2 emptyState u2 (some "en") none true 0 (by decide) (by decide)
     (by decide)⟩

/-- C7 counterexample: at query length 100 and similarity floor 7 the code's
window lower bound is 8, while the claimed exact formula
`ceil(max(L * S/100, 2))` gives 7: in binary64, `100 * (7/100.0)` rounds to
slightly above 7, and `math.ceil` turns that into 8. -/
theorem length_window_formula_counterexample :
    min_levenshtein_length 100 7 = 8 ∧
    (⌈max ((100 : ℚ) * ((7 : ℚ) / 100)) 2⌉ : ℤ) = 7 := by
  constructor
  · with_unfolding_all rfl
  · have h7 : ((100 : ℚ) * ((7 : ℚ) / 100)) = 7 := by norm_num
    rw [h7, max_eq_left (by norm_num : (2 : ℚ) ≤ 7)]
    norm_num

/-- C7 amended: the window is the float formula — `minlen` is
`ceil(max(L * fl(fl(S/100)), 2))` and `maxlen` is
`floor(min(fl(L / fl(S/100)), max_length))` computed in IEEE binary64
arithmetic (which can differ by one from the exact formula); in particular,
for query length 10, `min_similarity` 75 and any `max_length >= 13` the
window is `[8, 13]` exactly as the example states. -/
theorem length_window_example :
    ∀ max_length : Nat, 13 ≤ max_length →
      min_levenshtein_length 10 75 = 8 ∧
      max_levenshtein_length 10 75 max_length = 13 := by
  intro max_length h
  have hc : roundDouble (((10 : Nat) : ℚ) / roundDouble (((75 : Nat) : ℚ) / 100)) =
      (7505999378950827 : ℚ) / 562949953421312 := by
    with_unfolding_all rfl
  constructor
  · with_unfolding_all rfl
  · unfold max_levenshtein_length
    rw [hc]
    rcases Nat.lt_or_ge max_length 14 with h14 | h14
    · have h13 : max_length = 13 := le_antisymm (Nat.lt_succ_iff.mp h14) h
      subst h13
      rw [min_eq_right (by norm_num)]
      norm_num
    · have hML : (14 : ℚ) ≤ (max_length : ℚ) := by exact_mod_cast h14
      rw [min_eq_left (le_trans (by norm_num) hML)]
      rw [Int.floor_eq_iff]
      norm_num

/-- C7 witness: the example window at the default `max_length = 1000`. -/
theorem length_window_example_witness :
    min_levenshtein_length 10 75 = 8 ∧ max_levenshtein_length 10 75 1000 = 13 :=
  length_window_example 1000 (by norm_num)

/-- C9: round trip — after `add_unit` of the pair "Hello world" ->
"Bonjour le monde" (languages "en"/"fr"), querying "Hello world" with
source_langs `["en"]` and target_langs `["fr"]` returns exactly one record,
with quality 100 and target "Bonjour le monde". -/
theorem translate_unit_round_trip :
    translate_unit defaultConfig lshteinSimilarity st9.current "Hello world"
      (LangArg.list ["en"]) (LangArg.list ["fr"]) =
    Except.ok [{ source := "Hello world", target := "Bonjour le monde",
                 context := "", quality := 100 }] := by
  with_unfolding_all rfl

/-- C1 (divergence of the code from the claim): with the multi-tag list
`["en", "de"]` the code joins the tags into the single string "en,de" and
binds it to `IN (?)`, so the stored "en" row — which the claim says must be
scored — is not selected at all: the candidate list is empty and
`translate_unit` returns no records, while the spec-worded candidate set
contains the row. -/
theorem multilang_in_clause_selects_nothing :
    selectCandidates st9.current (joinLangs (LangArg.list ["en", "de"]))
        (joinLangs (LangArg.list ["fr"]))
        (min_levenshtein_length 11 75) (max_levenshtein_length 11 75 1000) = [] ∧
    specCandidates st9.current ["en", "de"] ["fr"]
        (min_levenshtein_length 11 75) (max_levenshtein_length 11 75 1000) =
      [({ sid := 1, text := "Hello world", context := some "", lang := "en",
          length := 11 },
        { tid := 1, sid := 1, text := "Bonjour le monde", lang := "fr",
          length := 16, time := 0 })] ∧
    translate_unit defaultConfig lshteinSimilarity st9.current "Hello world"
      (LangArg.list ["en", "de"]) (LangArg.list ["fr"]) = Except.ok [] := by
  refine ⟨?_, ?_, ?_⟩
  · with_unfolding_all rfl
  · with_unfolding_all rfl
  · with_unfolding_all rfl

/-- C2 counterexample: with an absent (null) context the unique index never
fires (SQLite treats NULL as distinct from NULL), so inserting the same
`(text, None, lang)` unit twice succeeds without error and creates TWO
source rows sharing the `(text, context, lang)` triple — and the second
target row hangs off the new sid 2, not the original sid 1. -/
theorem source_dedup_null_context_counterexample :
    (add_unit (add_unit emptyState u2 (some "en") (some "fr") true 0).1 u2
        (some "en") (some "fr") true 1).2 = none ∧
    ((add_unit (add_unit emptyState u2 (some "en") (some "fr") true 0).1 u2
        (some "en") (some "fr") true 1).1).current.sources =
      [{ sid := 1, text := "Hello", context := none, lang := "en", length := 5 },
       { sid := 2, text := "Hello", context := none, lang := "en", length := 5 }] ∧
    ((add_unit (add_unit emptyState u2 (some "en") (some "fr") true 0).1 u2
        (some "en") (some "fr") true 1).1).current.targets =
      [{ tid := 1, sid := 1, text := "Bonjour", lang := "fr", length := 7, time := 0 },
       { tid := 2, sid := 2, text := "Bonjour", lang := "fr", length := 7, time := 1 }] ∧
    SameTriple { sid := 1, text := "Hello", context := none, lang := "en", length := 5 }
      { sid := 2, text := "Hello", context := none, lang := "en", length := 5 } ∧
    ({ sid := 1, text := "Hello", context := none, lang := "en", length := 5 } : SourceRow) ≠
      { sid := 2, text := "Hello", context := none, lang := "en", length := 5 } := by
  refine ⟨by decide, by decide, by decide, ?_, by decide⟩
  exact ⟨rfl, rfl, rfl⟩

/-- C8: the guarded target insertion is idempotent — inserting a
`(sid, text, lang)` triple that already exists changes nothing (and, being
total, surfaces no error to the caller), and inserting a fresh triple yields
exactly one matching row. -/
theorem target_insert_idempotent :
    (∀ (db : DBData) (sid : Nat) (text lang : String) (now1 now2 : Nat),
        targetsTryInsert (targetsTryInsert db sid text lang now1) sid text lang now2 =
          targetsTryInsert db sid text lang now1) ∧
    (∀ (db : DBData) (sid : Nat) (text lang : String) (now : Nat),
        (db.targets.countP fun t => t.sid == sid && t.text == text && t.lang == lang) = 0 →
        ((targetsTryInsert db sid text lang now).targets.countP
          fun t => t.sid == sid && t.text == text && t.lang == lang) = 1) := by
  constructor
  · exact targetsTryInsert_idem
  · intro db sid text lang now h
    have hc : targetsConflict db.targets sid text lang = false := by
      unfold targetsConflict
      rw [List.any_eq_false]
      intro t ht
      have h0 := List.countP_eq_zero.mp h t ht
      simpa using h0
    unfold targetsTryInsert
    rw [if_neg (by simp [hc])]
    simp [List.countP_append, h]

/-- C8 witness: inserting the same target triple twice into a fresh store. -/
theorem target_insert_idempotent_witness :
    targetsTryInsert (targetsTryInsert emptyDB 1 "Bonjour" "fr" 5) 1 "Bonjour" "fr" 9 =
      targetsTryInsert emptyDB 1 "Bonjour" "fr" 5 ∧
    ((targetsTryInsert emptyDB 1 "Bonjour" "fr" 5).targets.countP
      fun t => t.sid == 1 && t.text == "Bonjour" && t.lang == "fr") = 1 :=
  ⟨target_insert_idempotent.1 emptyDB 1 "Bonjour" "fr" 5 9,
   target_insert_idempotent.2 emptyDB 1 "Bonjour" "fr" 5 (by decide)⟩

theorem buildResults_error_of_null_context
    (comparer : String → String → Nat → Nat) (minSim : Nat) (q : String) :
    ∀ rows : List (SourceRow × TargetRow),
      (∃ p ∈ rows, p.1.context = none) →
      buildResults comparer minSim q rows = Except.error PyError.attributeError := by
  intro rows
  induction rows with
  | nil =>
    rintro ⟨p, hp, _⟩
    cases hp
  | cons head rest ih =>
    rintro ⟨p, hp, hctx⟩
    rcases head with ⟨s, t⟩
    rcases hs : s.context with _ | c
    · simp only [buildResults, encodeContext, hs]
      rfl
    · have hrest : ∃ p ∈ rest, p.1.context = none := by
        rcases List.mem_cons.mp hp with h | h
        · rw [h] at hctx
          rw [hs] at hctx
          cases hctx
        · exact ⟨p, h, hctx⟩
      have he := ih hrest
      simp only [buildResults, encodeContext, hs, he]
      rfl

/-- C10: if any candidate row selected by the language and length-window
filters carries an absent (null) context, `translate_unit` raises while
building the result record (`None.encode("utf-8")`) instead of returning;
hence it returns normally only when every selected candidate has a non-null
context. -/
theorem translate_unit_null_context_raises :
    ∀ (cfg : TMConfig) (comparer : String → String → Nat → Nat) (db : DBData)
      (unit_source : String) (source_langs target_langs : LangArg),
      (∃ p ∈ selectCandidates db (joinLangs source_langs) (joinLangs target_langs)
          (min_levenshtein_length unit_source.length cfg.min_similarity)
          (max_levenshtein_length unit_source.length cfg.min_similarity cfg.max_length),
        p.1.context = none) →
      translate_unit cfg comparer db unit_source source_langs target_langs =
        Except.error PyError.attributeError := by
  intro cfg comparer db q source_langs target_langs hex
  have he := buildResults_error_of_null_context comparer cfg.min_similarity q _ hex
  simp only [translate_unit, he]
  rfl

/-- C10 witness: a store whose only pair was stored with a null context makes
the query raise. -/
theorem translate_unit_null_context_raises_witness :
    translate_unit defaultConfig lshteinSimilarity db10 "Hello" (LangArg.str "en")
      (LangArg.str "fr") = Except.error PyError.attributeError := by
  apply translate_unit_null_context_raises
  refine ⟨({ sid := 1, text := "Hello", context := none, lang := "en", length := 5 },
           { tid := 1, sid := 1, text := "Bonjour", lang := "fr", length := 7,
             time := 0 }), ?_, rfl⟩
  have hs : selectCandidates db10 (joinLangs (LangArg.str "en"))
      (joinLangs (LangArg.str "fr"))
      (min_levenshtein_length ("Hello".length) defaultConfig.min_similarity)
      (max_levenshtein_length ("Hello".length) defaultConfig.min_similarity
        defaultConfig.max_length) =
      [({ sid := 1, text := "Hello", context := none, lang := "en", length := 5 },
        { tid := 1, sid := 1, text := "Bonjour", lang := "fr", length := 7,
          time := 0 })] := by
    with_unfolding_all rfl
  rw [hs]
  exact List.mem_singleton.mpr rfl

theorem mem_insertByQuality {a b : MatchRecord} {l : List MatchRecord}
    (h : a ∈ insertByQuality b l) : a = b ∨ a ∈ l := by
  induction l with
  | nil =>
    rw [insertByQuality] at h
    exact Or.inl (List.mem_singleton.mp h)
  | cons c l ih =>
    unfold insertByQuality at h
    by_cases hq : c.quality ≤ b.quality
    · rw [if_pos hq] at h
      rcases List.mem_cons.mp h with h | h
      · exact Or.inl h
      · exact Or.inr h
    · rw [if_neg hq] at h
      rcases List.mem_cons.mp h with h | h
      · exact Or.inr (List.mem_cons.mpr (Or.inl h))
      · rcases ih h with h | h
        · exact Or.inl h
        · exact Or.inr (List.mem_cons.mpr (Or.inr h))

theorem mem_sortByQualityDesc {a : MatchRecord} {l : List MatchRecord}
    (h : a ∈ sortByQualityDesc l) : a ∈ l := by
  induction l with
  | nil =>
    rw [sortByQualityDesc] at h
    exact h
  | cons b l ih =>
    unfold sortByQualityDesc at h
    rcases mem_insertByQuality h with h | h
    · exact List.mem_cons.mpr (Or.inl h)
    · exact List.mem_cons.mpr (Or.inr (ih h))

theorem sorted_insertByQuality {l : List MatchRecord} (a : MatchRecord)
    (h : List.Pairwise (fun x y => y.quality ≤ x.quality) l) :
    List.Pairwise (fun x y => y.quality ≤ x.quality) (insertByQuality a l) := by
  induction l with
  | nil => simp [insertByQuality]
  | cons b l ih =>
    rcases List.pairwise_cons.mp h with ⟨hb, hl⟩
    unfold insertByQuality
    by_cases hq : b.quality ≤ a.quality
    · rw [if_pos hq]
      refine List.pairwise_cons.mpr ⟨?_, h⟩
      intro x hx
      rcases List.mem_cons.mp hx with rfl | hx
      · exact hq
      · exact le_trans (hb x hx) hq
    · rw [if_neg hq]
      refine List.pairwise_cons.mpr ⟨?_, ih hl⟩
      intro x hx
      rcases mem_insertByQuality hx with rfl | hx
      · exact le_of_not_le hq
      · exact hb x hx

theorem sorted_sortByQualityDesc (l : List MatchRecord) :
    List.Pairwise (fun x y => y.quality ≤ x.quality) (sortByQualityDesc l) := by
  induction l with
  | nil => simp [sortByQualityDesc]
  | cons a l ih => exact sorted_insertByQuality a ih

theorem buildResults_cons_none (comparer : String → String → Nat → Nat)
    (minSim : Nat) (q : String) (s : SourceRow) (t : TargetRow)
    (rest : List (SourceRow × TargetRow)) (hs : s.context = none) :
    buildResults comparer minSim q ((s, t) :: rest) =
      Except.error PyError.attributeError := by
  simp only [buildResults, encodeContext, hs]
  rfl

theorem buildResults_cons_some (comparer : String → String → Nat → Nat)
    (minSim : Nat) (q : String) (s : SourceRow) (t : TargetRow)
    (rest : List (SourceRow × TargetRow)) (c : String) (hs : s.context = some c) :
    buildResults comparer minSim q ((s, t) :: rest) =
      (buildResults comparer minSim q rest).bind fun others =>
        if minSim ≤ comparer q s.text minSim then
          Except.ok ({ source := s.text, target := t.text, context := c,
                       quality := comparer q s.text minSim } :: others)
        else Except.ok others := by
  simp only [buildResults, encodeContext, hs]
  rfl

theorem buildResults_ok_mem (comparer : String → String → Nat → Nat)
    (minSim : Nat) (q : String) :
    ∀ (rows : List (SourceRow × TargetRow)) (res : List MatchRecord),
      buildResults comparer minSim q rows = Except.ok res →
      ∀ r ∈ res, minSim ≤ r.quality ∧
        ∃ s : SourceRow, r.quality = comparer q s.text minSim := by
  intro rows
  induction rows with
  | nil =>
    intro res h r hr
    simp only [buildResults] at h
    injection h with h
    subst h
    cases hr
  | cons head rest ih =>
    intro res h r hr
    rcases head with ⟨s, t⟩
    rcases hs : s.context with _ | c
    · rw [buildResults_cons_none comparer minSim q s t rest hs] at h
      cases h
    · rw [buildResults_cons_some comparer minSim q s t rest c hs] at h
      rcases hrest : buildResults comparer minSim q rest with e | others
      · rw [hrest] at h
        simp [Except.bind] at h
      · rw [hrest] at h
        simp only [Except.bind] at h
        by_cases hq : minSim ≤ comparer q s.text minSim
        · rw [if_pos hq] at h
          injection h with h
          subst h
          rcases List.mem_cons.mp hr with rfl | hr
          · exact ⟨hq, ⟨s, rfl⟩⟩
          · exact ih others hrest r hr
        · rw [if_neg hq] at h
          injection h with h
          subst h
          exact ih others hrest r hr

theorem translate_unit_eq (cfg : TMConfig) (comparer : String → String → Nat → Nat)
    (db : DBData) (q : String) (source_langs target_langs : LangArg) :
    translate_unit cfg comparer db q source_langs target_langs =
      (buildResults comparer cfg.min_similarity q
        (selectCandidates db (joinLangs source_langs) (joinLangs target_langs)
          (min_levenshtein_length q.length cfg.min_similarity)
          (max_levenshtein_length q.length cfg.min_similarity cfg.max_length))).bind
        fun results =>
          Except.ok ((sortByQualityDesc results).take cfg.max_candidates) := rfl

/-- C5: every record returned by `translate_unit` has a quality at least
`min_similarity` (the post-scoring filter discards anything below the floor)
and at most 100 (given a comparer that respects its contractual 0..100
range). -/
theorem translate_unit_quality_bounds :
    ∀ (cfg : TMConfig) (comparer : String → String → Nat → Nat) (db : DBData)
      (unit_source : String) (source_langs target_langs : LangArg)
      (res : List MatchRecord),
      (∀ a b m, comparer a b m ≤ 100) →
      translate_unit cfg comparer db unit_source source_langs target_langs =
        Except.ok res →
      ∀ r ∈ res, cfg.min_similarity ≤ r.quality ∧ r.quality ≤ 100 := by
  intro cfg comparer db q source_langs target_langs res hcomp h r hr
  rw [translate_unit_eq] at h
  rcases hb : buildResults comparer cfg.min_similarity q
      (selectCandidates db (joinLangs source_langs) (joinLangs target_langs)
        (min_levenshtein_length q.length cfg.min_similarity)
        (max_levenshtein_length q.length cfg.min_similarity cfg.max_length))
    with e | results
  · rw [hb] at h
    simp [Except.bind] at h
  · rw [hb] at h
    simp only [Except.bind] at h
    injection h with h
    subst h
    have hr1 : r ∈ sortByQualityDesc results := List.take_subset _ _ hr
    have hr2 : r ∈ results := mem_sortByQualityDesc hr1
    obtain ⟨hfloor, s, hsq⟩ := buildResults_ok_mem comparer cfg.min_similarity q _
      results hb r hr2
    refine ⟨hfloor, ?_⟩
    rw [hsq]
    exact hcomp q s.text cfg.min_similarity

/-- C5 witness: a comparer scoring 80 on the one-pair store `db5` returns the
record `rec5`, whose quality sits in `[min_similarity, 100]`. -/
theorem translate_unit_quality_bounds_witness :
    defaultConfig.min_similarity ≤ rec5.quality ∧ rec5.quality ≤ 100 :=
  translate_unit_quality_bounds defaultConfig (fun _ _ _ => 80) db5 "Hello"
    (LangArg.str "en") (LangArg.str "fr") [rec5] (fun _ _ _ => by norm_num)
    (by with_unfolding_all rfl) rec5 (by simp)

/-- C6: `translate_unit` returns at most `max_candidates` records, sorted by
quality in non-increasing order. -/
theorem translate_unit_sorted_truncated :
    ∀ (cfg : TMConfig) (comparer : String → String → Nat → Nat) (db : DBData)
      (unit_source : String) (source_langs target_langs : LangArg)
      (res : List MatchRecord),
      translate_unit cfg comparer db unit_source source_langs target_langs =
        Except.ok res →
      res.length ≤ cfg.max_candidates ∧
      List.Pairwise (fun x y => y.quality ≤ x.quality) res := by
  intro cfg comparer db q source_langs target_langs res h
  rw [translate_unit_eq] at h
  rcases hb : buildResults comparer cfg.min_similarity q
      (selectCandidates db (joinLangs source_langs) (joinLangs target_langs)
        (min_levenshtein_length q.length cfg.min_similarity)
        (max_levenshtein_length q.length cfg.min_similarity cfg.max_length))
    with e | results
  · rw [hb] at h
    simp [Except.bind] at h
  · rw [hb] at h
    simp only [Except.bind] at h
    injection h with h
    subst h
    constructor
    · exact List.length_take_le _ _
    · exact (sorted_sortByQualityDesc results).sublist (List.take_sublist _ _)

theorem find?_append_of_none {α : Type} (p : α → Bool) (l1 l2 : List α)
    (h : l1.find? p = none) : (l1 ++ l2).find? p = l2.find? p := by
  induction l1 with
  | nil => rfl
  | cons a l ih =>
    rw [List.find?_cons] at h
    rcases hp : p a with _ | _
    · rw [hp] at h
      rw [List.cons_append, List.find?_cons, hp]
      exact ih h
    · rw [hp] at h
      cases h

theorem noDupSources_append (rows : List SourceRow) (text : String)
    (ctx : Option String) (lang : String) (sid len : Nat)
    (h : NoDupSources rows) (hc : sourcesConflict rows text ctx lang = false) :
    NoDupSources (rows ++
      [{ sid := sid, text := text, context := ctx, lang := lang, length := len }]) := by
  unfold NoDupSources at h ⊢
  rw [List.pairwise_append]
  refine ⟨h, List.pairwise_singleton _ _, ?_⟩
  intro r hr nr hnr hctx hsame
  have hnr1 : nr = SourceRow.mk sid text ctx lang len := List.mem_singleton.mp hnr
  subst hnr1
  obtain ⟨ht, hcx, hl⟩ := hsame
  rcases hrctx : r.context with _ | c
  · exact hctx hrctx
  · have hconf : sourcesConflict rows text ctx lang = true := by
      unfold sourcesConflict
      rw [List.any_eq_true]
      refine ⟨r, hr, ?_⟩
      have hcx2 : ctx = some c := by
        have hcx' : r.context = ctx := hcx
        rw [← hcx']
        exact hrctx
      simp [ht, hl, hrctx, hcx2, sqlEq]
    rw [hconf] at hc
    cases hc

theorem addUnitBody_noDup (db : DBData) (u : TranslationUnit) (sl tl : String)
    (now : Nat) (h : NoDupSources db.sources) :
    NoDupSources ((addUnitBody db u sl tl now).1).sources := by
  rcases hsrc : u.source with _ | srcText
  · simp only [addUnitBody, hsrc]
    exact h
  · simp only [addUnitBody, hsrc]
    by_cases hc : sourcesConflict db.sources srcText u.context sl = true
    · simp only [hc, if_true]
      rcases hl : sourcesLookup db.sources srcText u.context sl with _ | sid
      · exact h
      · rcases htgt : u.target with _ | tgtText
        · exact h
        · simpa only [targetsTryInsert_sources] using h
    · have hc0 : sourcesConflict db.sources srcText u.context sl = false :=
        Bool.not_eq_true _ ▸ eq_false_of_ne_true hc
      have happ := noDupSources_append db.sources srcText u.context sl db.nextSid
        srcText.length h hc0
      simp only [hc0, Bool.false_eq_true, if_false]
      rcases htgt : u.target with _ | tgtText
      · exact happ
      · simpa only [targetsTryInsert_sources] using happ

theorem add_unit_noDup (st : ConnState) (u : TranslationUnit)
    (source_lang target_lang : Option String) (commit : Bool) (now : Nat)
    (h : StateNoDup st) :
    StateNoDup ((add_unit st u source_lang target_lang commit now).1) := by
  obtain ⟨h1, h2⟩ := h
  unfold add_unit
  set sl := (if truthy u.sourcelanguage then u.sourcelanguage else source_lang) with hsl
  set tl := (if truthy u.targetlanguage then u.targetlanguage else target_lang) with htl
  by_cases hs1 : truthy sl = false
  · rw [if_pos hs1]
    exact ⟨h1, h2⟩
  · rw [if_neg hs1]
    by_cases hs2 : truthy tl = false
    · rw [if_pos hs2]
      exact ⟨h1, h2⟩
    · rw [if_neg hs2]
      have hbody := addUnitBody_noDup st.current u (sl.getD "") (tl.getD "") now h1
      rcases hb : addUnitBody st.current u (sl.getD "") (tl.getD "") now with ⟨db, e⟩
      rw [hb] at hbody
      cases e with
      | none =>
        cases commit with
        | true => exact ⟨hbody, hbody⟩
        | false => exact ⟨hbody, h2⟩
      | some e0 =>
        cases commit with
        | true => exact ⟨h2, h2⟩
        | false => exact ⟨hbody, h2⟩

theorem add_unit_reinsert_noop
    (st st1 : ConnState) (u : TranslationUnit) (source_lang target_lang : Option String)
    (now1 now2 : Nat) (c : String)
    (hctx : u.context = some c)
    (h : add_unit st u source_lang target_lang false now1 = (st1, none)) :
    add_unit st1 u source_lang target_lang false now2 = (st1, none) := by
  unfold add_unit at h ⊢
  set sl := (if truthy u.sourcelanguage then u.sourcelanguage else source_lang) with hsl
  set tl := (if truthy u.targetlanguage then u.targetlanguage else target_lang) with htl
  by_cases hs1 : truthy sl = false
  · rw [if_pos hs1] at h
    injection h with h1 h2
    exact Option.noConfusion h2
  · rw [if_neg hs1] at h ⊢
    by_cases hs2 : truthy tl = false
    · rw [if_pos hs2] at h
      injection h with h1 h2
      exact Option.noConfusion h2
    · rw [if_neg hs2] at h ⊢
      rcases hb : addUnitBody st.current u (sl.getD "") (tl.getD "") now1 with ⟨db1, e⟩
      rw [hb] at h
      cases e with
      | some e0 =>
        have h' : ({ st with current := db1 }, some e0) = (st1, none) := h
        injection h' with h1 h2
        exact Option.noConfusion h2
      | none =>
        have h' : ({ st with current := db1 }, (none : Option PyError)) = (st1, none) := h
        injection h' with h1 _
        have hcur : st1.current = db1 := by rw [← h1]
        rcases hsrc : u.source with _ | srcText
        · exfalso
          simp only [addUnitBody, hsrc] at hb
          injection hb with _ hb2
          exact Option.noConfusion hb2
        · simp only [addUnitBody, hsrc] at hb
          by_cases hc : sourcesConflict st.current.sources srcText u.context (sl.getD "") = true
          · simp only [hc, if_true] at hb
            rcases hl : sourcesLookup st.current.sources srcText u.context (sl.getD "")
              with _ | sid
            · simp only [hl] at hb
              injection hb with _ hb2
              exact Option.noConfusion hb2
            · simp only [hl] at hb
              rcases htgt : u.target with _ | tgtText
              · simp only [htgt] at hb
                injection hb with _ hb2
                exact Option.noConfusion hb2
              · simp only [htgt] at hb
                injection hb with hb1 _
                have hsrcs : db1.sources = st.current.sources := by
                  rw [← hb1, targetsTryInsert_sources]
                have hconf2 : sourcesConflict db1.sources srcText u.context
                    (sl.getD "") = true := by
                  rw [hsrcs]
                  exact hc
                have hlook2 : sourcesLookup db1.sources srcText u.context
                    (sl.getD "") = some sid := by
                  rw [hsrcs]
                  exact hl
                have hidem : targetsTryInsert db1 sid tgtText (tl.getD "") now2 = db1 := by
                  rw [← hb1]
                  exact targetsTryInsert_idem st.current sid tgtText (tl.getD "") now1 now2
                have hbody2 : addUnitBody st1.current u (sl.getD "") (tl.getD "") now2 =
                    (db1, none) := by
                  rw [hcur]
                  simp only [addUnitBody, hsrc, hconf2, if_true, hlook2, htgt, hidem]
                rw [hbody2]
                have hst : ({ st1 with current := db1 }) = st1 := by
                  rw [← hcur]
                show ({ st1 with current := db1 }, (none : Option PyError)) = (st1, none)
                rw [hst]
          · have hc0 : sourcesConflict st.current.sources srcText u.context
                (sl.getD "") = false := eq_false_of_ne_true hc
            simp only [hc0, Bool.false_eq_true, if_false] at hb
            rcases htgt : u.target with _ | tgtText
            · simp only [htgt] at hb
              injection hb with _ hb2
              exact Option.noConfusion hb2
            · simp only [htgt] at hb
              injection hb with hb1 _
              have hsrcs : db1.sources = st.current.sources ++
                  [SourceRow.mk st.current.nextSid srcText u.context (sl.getD "")
                    srcText.length] := by
                rw [← hb1, targetsTryInsert_sources]
              have hconf2 : sourcesConflict db1.sources srcText u.context
                  (sl.getD "") = true := by
                rw [hsrcs]
                unfold sourcesConflict
                rw [List.any_append]
                have hone : ([SourceRow.mk st.current.nextSid srcText u.context
                    (sl.getD "") srcText.length].any fun r =>
                      r.text == srcText && sqlEq r.context u.context &&
                      r.lang == sl.getD "") = true := by
                  simp [sqlEq, hctx]
                rw [hone]
                simp
              have hfindnone : st.current.sources.find? (fun r =>
                  r.text == srcText && sqlEq r.context u.context &&
                  r.lang == sl.getD "") = none := by
                rw [List.find?_eq_none]
                intro x hx hpx
                have hcc : sourcesConflict st.current.sources srcText u.context
                    (sl.getD "") = true := by
                  unfold sourcesConflict
                  rw [List.any_eq_true]
                  exact ⟨x, hx, hpx⟩
                rw [hcc] at hc0
                cases hc0
              have hlook2 : sourcesLookup db1.sources srcText u.context
                  (sl.getD "") = some st.current.nextSid := by
                rw [hsrcs]
                unfold sourcesLookup
                rw [find?_append_of_none _ _ _ hfindnone]
                simp [List.find?, sqlEq, hctx]
              have hidem : targetsTryInsert db1 st.current.nextSid tgtText
                  (tl.getD "") now2 = db1 := by
                rw [← hb1]
                exact targetsTryInsert_idem _ _ _ _ _ _
              have hbody2 : addUnitBody st1.current u (sl.getD "") (tl.getD "") now2 =
                  (db1, none) := by
                rw [hcur]
                simp only [addUnitBody, hsrc, hconf2, if_true, hlook2, htgt, hidem]
              rw [hbody2]
              have hst : ({ st1 with current := db1 }) = st1 := by
                rw [← hcur]
              show ({ st1 with current := db1 }, (none : Option PyError)) = (st1, none)
              rw [hst]

/-- C2 amended: with a NON-NULL context the invariant and the idempotent
re-insertion hold: `add_unit` preserves "no two Source rows with non-null
context share a (text, context, lang) triple" on both snapshots (so it holds
for every sequence of calls starting from the empty store), and repeating a
successful `add_unit` of a unit with non-null context is a complete no-op
that succeeds and reuses the existing row's sid (hence also skips the target
insert).  With a NULL context the invariant fails (see the counterexample):
SQLite unique indexes treat NULL as distinct, so each insert creates a fresh
row. -/
theorem source_dedup_invariant_and_idempotent :
    (∀ (st : ConnState) (u : TranslationUnit) (source_lang target_lang : Option String)
        (commit : Bool) (now : Nat),
        StateNoDup st →
        StateNoDup ((add_unit st u source_lang target_lang commit now).1)) ∧
    (∀ (st st1 : ConnState) (u : TranslationUnit)
        (source_lang target_lang : Option String) (now1 now2 : Nat) (c : String),
        u.context = some c →
        add_unit st u source_lang target_lang false now1 = (st1, none) →
        add_unit st1 u source_lang target_lang false now2 = (st1, none)) :=
  ⟨fun st u source_lang target_lang commit now h =>
      add_unit_noDup st u source_lang target_lang commit now h,
   fun st st1 u source_lang target_lang now1 now2 c hctx h =>
      add_unit_reinsert_noop st st1 u source_lang target_lang now1 now2 c hctx h⟩

/-- C2 witness: the invariant after one insertion on a fresh store, and the
second identical insertion of `u3good` (context "") being a successful
no-op. -/
theorem source_dedup_witness :
    StateNoDup ((add_unit emptyState u3good (some "en") (some "fr") true 0).1) ∧
    add_unit ((add_unit emptyState u3good (some "en") (some "fr") false 0).1) u3good
        (some "en") (some "fr") false 1 =
      ((add_unit emptyState u3good (some "en") (some "fr") false 0).1, none) :=
  ⟨source_dedup_invariant_and_idempotent.1 emptyState u3good (some "en") (some "fr")
      true 0 ⟨List.Pairwise.nil, List.Pairwise.nil⟩,
   source_dedup_invariant_and_idempotent.2 emptyState
      ((add_unit emptyState u3good (some "en") (some "fr") false 0).1) u3good
      (some "en") (some "fr") 0 1 "" rfl (by decide)⟩

/-- C6 witness: the one-record result on `db5` is within the cap and
trivially sorted. -/
theorem translate_unit_sorted_truncated_witness :
    ([rec5] : List MatchRecord).length ≤ defaultConfig.max_candidates ∧
    List.Pairwise (fun x y => y.quality ≤ x.quality) [rec5] :=
  translate_unit_sorted_truncated defaultConfig (fun _ _ _ => 80) db5 "Hello"
    (LangArg.str "en") (LangArg.str "fr") [rec5] (by with_unfolding_all rfl)
